import Mathlib

/-!
# Verification of the better-max-params lint rule

A shallow embedding of the core analysis of the `better-max-params` lint
rule: token/span utilities, static string/property-name resolution, the
function-kind labeler, the head-location extractor, and the rule
orchestration (option reading and per-node checking).

Conventions of the embedding:
- JS `undefined`/`null` results are modelled with `Option`; a lookup that
  would dereference `null` in JS (a crash) propagates as `none`.
- Token and node source ranges are character offsets `(start, stop)`;
  `loc` positions carry the line and the 1-based display column.
- Numeric literal values are modelled as integers (the rule only ever
  compares integer limits and parameter counts).
- The JS comparison `x > undefined` is `false`; it is modelled by `jsGt`.
-/

/-- A position in the source text: line number and 1-based column. -/
structure Position where
  line : Nat
  column : Nat
deriving DecidableEq

/-- A source location: start and end positions (`loc` in ESTree). -/
structure SourceLocation where
  start : Position
  stop : Position
deriving DecidableEq

/-- A lexical token: its type tag, literal text, character range and
location, mirroring the host's token objects. -/
structure Token where
  type : String
  value : String
  start : Nat
  stop : Nat
  loc : SourceLocation
deriving DecidableEq

/-- The token stream of one source file, in source order. -/
abbrev SourceCode := List Token

/-- Models `sourceCode.getFirstToken(node)`: the first token lying inside the
range `[s, e]`. -/
def getFirstToken (sourceCode : SourceCode) (s e : Nat) : Option Token :=
  (sourceCode.filter (fun t => s ≤ t.start && t.stop ≤ e)).head?

/-- Models `sourceCode.getFirstToken(node, pred)`: the first token inside the
range `[s, e]` satisfying `pred`. -/
def getFirstTokenFiltered (sourceCode : SourceCode) (s e : Nat)
    (pred : Token → Bool) : Option Token :=
  (sourceCode.filter (fun t => s ≤ t.start && t.stop ≤ e && pred t)).head?

/-- Models `sourceCode.getTokenBefore(x)`: the last token ending at or before
offset `pos` (the token immediately preceding `x`); `none` models the JS
`null` at the start of the file. -/
def getTokenBefore (sourceCode : SourceCode) (pos : Nat) : Option Token :=
  (sourceCode.filter (fun t => t.stop ≤ pos)).getLast?

/-- Models `sourceCode.getTokenBefore(x, pred)`: the nearest preceding token
satisfying `pred`. -/
def getTokenBeforeFiltered (sourceCode : SourceCode) (pos : Nat)
    (pred : Token → Bool) : Option Token :=
  (sourceCode.filter (fun t => t.stop ≤ pos && pred t)).getLast?

/-- Models `sourceCode.getTokenAfter(x, pred)`: the first token starting at or
after offset `pos` satisfying `pred`. -/
def getTokenAfterFiltered (sourceCode : SourceCode) (pos : Nat)
    (pred : Token → Bool) : Option Token :=
  (sourceCode.filter (fun t => pos ≤ t.start && pred t)).head?

/-- Models `isOpeningParenToken(token)`: the token's value is "(" and its type
is Punctuator. -/
def isOpeningParenToken (token : Token) : Bool :=
  token.value == "(" && token.type == "Punctuator"

/-- Models `isArrowToken(token)`: the token's value is "=>" and its type is
Punctuator. -/
def isArrowToken (token : Token) : Bool :=
  token.value == "=>" && token.type == "Punctuator"

/-- Regex data attached to a regex Literal node (`node.regex`). -/
structure RegexInfo where
  pattern : String
  flags : String
deriving DecidableEq

/-- The runtime value of a Literal node (`node.value`). `regexObj` and
`bigintObj` stand for environment-representable RegExp/BigInt values. -/
inductive JSValue where
  | str (s : String)
  | num (n : Int)
  | bool (b : Bool)
  | null
  | regexObj (pattern flags : String)
  | bigintObj (digits : String)
deriving DecidableEq

/-- The JS `String(value)` conversion on the literal values above. -/
def jsToString : JSValue → String
  | .str s => s
  | .num n => toString n
  | .bool true => "true"
  | .bool false => "false"
  | .null => "null"
  | .regexObj p f => "/" ++ p ++ "/" ++ f
  | .bigintObj d => d

/-- An expression node as inspected by the static resolvers: a Literal
(with optional `regex`/`bigint` extras), a TemplateLiteral (recording the
number of embedded expressions and the cooked texts of its quasis), an
Identifier, a PrivateIdentifier, or any other node kind. -/
inductive Expr where
  | literal (value : JSValue) (regex : Option RegexInfo) (bigint : Option String)
  | templateLiteral (exprCount : Nat) (quasis : List String)
  | identifier (name : String)
  | privateIdentifier (name : String)
  | other (type : String)
deriving DecidableEq

/-- Models `node.type` of an expression node. -/
def Expr.type : Expr → String
  | .literal _ _ _ => "Literal"
  | .templateLiteral _ _ => "TemplateLiteral"
  | .identifier _ => "Identifier"
  | .privateIdentifier _ => "PrivateIdentifier"
  | .other t => t

/-- Models `node.name` of an (private) identifier node. -/
def Expr.keyName : Expr → String
  | .identifier n => n
  | .privateIdentifier n => n
  | _ => ""

/-- Models `isNullLiteral(node)`: a Literal whose value is `null` with neither
`regex` nor `bigint` data attached. -/
def isNullLiteral (node : Expr) : Bool :=
  match node with
  | .literal value regex bigint =>
      (match value with | .null => true | _ => false)
        && regex.isNone && bigint.isNone
  | _ => false

/-- Models `getStaticStringValue(node)`: string form of a Literal's value
(distinguishing true null literals from unrepresentable regex/bigint
literals via `node.regex`/`node.bigint`), the single cooked chunk of a
simple TemplateLiteral, `none` for everything else. -/
def getStaticStringValue (node : Expr) : Option String :=
  match node with
  | .literal value regex bigint =>
      match value with
      | .null =>
          if isNullLiteral node then some "null"
          else
            match regex with
            | some r => some ("/" ++ r.pattern ++ "/" ++ r.flags)
            | none =>
                match bigint with
                | some b => some b
                | none => none
      | v => some (jsToString v)
  | .templateLiteral exprCount quasis =>
      if exprCount == 0 && quasis.length == 1 then quasis.head? else none
  | _ => none

/-- A node as inspected by `getStaticPropertyName`: the tagged cases its
switch handles, with the `key`/`property` field and the `computed` flag. -/
inductive PNode where
  | chainExpression (expression : PNode)
  | property (key : Expr) (computed : Bool)
  | propertyDefinition (key : Expr) (computed : Bool)
  | methodDefinition (key : Expr) (computed : Bool)
  | memberExpression (property : Expr) (computed : Bool)
  | other (type : String)
deriving DecidableEq

/-- The tail of `getStaticPropertyName`: a non-computed plain identifier
key resolves to its name, anything else goes through
`getStaticStringValue`. -/
def resolvePropKey (prop : Expr) (computed : Bool) : Option String :=
  match prop with
  | .identifier name => if !computed then some name else getStaticStringValue prop
  | _ => getStaticStringValue prop

/-- Models `getStaticPropertyName(node)`: unwraps one ChainExpression level,
selects `key` (Property/PropertyDefinition/MethodDefinition) or
`property` (MemberExpression), resolves it; `none` for dynamic keys and
unhandled node kinds. -/
def getStaticPropertyName : PNode → Option String
  | .chainExpression e => getStaticPropertyName e
  | .property key computed => resolvePropKey key computed
  | .propertyDefinition key computed => resolvePropKey key computed
  | .methodDefinition key computed => resolvePropKey key computed
  | .memberExpression prop computed => resolvePropKey prop computed
  | .other _ => none

/-- A name Identifier attached to a function node (`node.id`). -/
structure Ident where
  name : String
  start : Nat
  stop : Nat
deriving DecidableEq

/-- A parameter node: only its source range is ever inspected. -/
structure ParamNode where
  start : Nat
  stop : Nat
deriving DecidableEq

/-- The immediate parent of a function-like node: its type tag and, for
member-like parents (Property/MethodDefinition/PropertyDefinition), the
`static`/`computed` flags, the `key` node, the `kind` string and the
parent's own location. For non-member parents the extra fields are
unused. -/
structure ParentNode where
  type : String
  static : Bool
  computed : Bool
  key : Expr
  kind : String
  loc : SourceLocation
deriving DecidableEq

/-- A function-like node (FunctionDeclaration, FunctionExpression or
ArrowFunctionExpression) with the fields the rule inspects: parent,
parameter list, optional name identifier, `async`/`generator` flags,
source range, body start offset and location. -/
structure FuncNode where
  type : String
  parent : ParentNode
  params : List ParamNode
  id : Option Ident
  async : Bool
  generator : Bool
  start : Nat
  stop : Nat
  bodyStart : Nat
  loc : SourceLocation
deriving DecidableEq

/-- Models `getOpeningParenOfParams(node, sourceCode)`: for an arrow function
with exactly one parameter, the first token of that parameter — unless an
opening parenthesis immediately precedes it, which is then returned.
Otherwise the first "(" after `node.id` when present, else the first "("
inside the node. `none` propagates a JS `null` dereference. -/
def getOpeningParenOfParams (node : FuncNode) (sourceCode : SourceCode) :
    Option Token :=
  if node.type == "ArrowFunctionExpression" && node.params.length == 1 then
    match node.params with
    | p :: _ =>
        match getFirstToken sourceCode p.start p.stop with
        | some argToken =>
            match getTokenBefore sourceCode argToken.start with
            | some maybeParenToken =>
                some (if isOpeningParenToken maybeParenToken then
                  maybeParenToken else argToken)
            | none => none
        | none => none
    | [] => none
  else
    match node.id with
    | some i => getTokenAfterFiltered sourceCode i.stop isOpeningParenToken
    | none => getFirstTokenFiltered sourceCode node.start node.stop
        isOpeningParenToken

/-- Models `getFunctionHeadLoc(node, sourceCode)`: member-parented functions span
from the parent's start to the start of the opening-parameter-boundary
token; other arrows span exactly their "=>" token; other functions span
from their own start to the boundary token's start. -/
def getFunctionHeadLoc (node : FuncNode) (sourceCode : SourceCode) :
    Option SourceLocation :=
  let parent := node.parent
  if parent.type == "Property" || parent.type == "MethodDefinition"
      || parent.type == "PropertyDefinition" then
    (getOpeningParenOfParams node sourceCode).map
      (fun tk => ⟨parent.loc.start, tk.loc.start⟩)
  else if node.type == "ArrowFunctionExpression" then
    (getTokenBeforeFiltered sourceCode node.bodyStart isArrowToken).map
      (fun arrowToken => ⟨arrowToken.loc.start, arrowToken.loc.stop⟩)
  else
    (getOpeningParenOfParams node sourceCode).map
      (fun tk => ⟨node.loc.start, tk.loc.start⟩)

/-- View of a member-like parent as a `getStaticPropertyName` input. -/
def ParentNode.asPNode (p : ParentNode) : PNode :=
  if p.type == "Property" then .property p.key p.computed
  else if p.type == "PropertyDefinition" then .propertyDefinition p.key p.computed
  else if p.type == "MethodDefinition" then .methodDefinition p.key p.computed
  else .other p.type

/-- Models `getFunctionNameWithKind(node)`: the descriptor-word label
("static"/"private"/"async"/"generator", then the kind word, then the
name suffix), with an early return of the literal "constructor" for
constructor members. -/
def getFunctionNameWithKind (node : FuncNode) : String :=
  let parent := node.parent
  let tokens : List String := []
  let tokens := tokens ++
    (if (parent.type == "MethodDefinition" || parent.type == "PropertyDefinition")
        && parent.static then ["static"] else [])
  let tokens := tokens ++
    (if (parent.type == "MethodDefinition" || parent.type == "PropertyDefinition")
        && !parent.computed && parent.key.type == "PrivateIdentifier"
     then ["private"] else [])
  let tokens := tokens ++ (if node.async then ["async"] else [])
  let tokens := tokens ++ (if node.generator then ["generator"] else [])
  if (parent.type == "Property" || parent.type == "MethodDefinition")
      && parent.kind == "constructor" then
    "constructor"
  else
    let tokens := tokens ++
      (if parent.type == "Property" || parent.type == "MethodDefinition" then
        (if parent.kind == "get" then ["getter"]
         else if parent.kind == "set" then ["setter"]
         else ["method"])
       else if parent.type == "PropertyDefinition" then ["method"]
       else
        (if node.type == "ArrowFunctionExpression" then ["arrow"] else [])
          ++ ["function"])
    let tokens := tokens ++
      (if parent.type == "Property" || parent.type == "MethodDefinition"
          || parent.type == "PropertyDefinition" then
        (if !parent.computed && parent.key.type == "PrivateIdentifier" then
          ["#" ++ parent.key.keyName]
         else
          match getStaticPropertyName parent.asPNode with
          | some name => ["'" ++ name ++ "'"]
          | none =>
              match node.id with
              | some i => ["'" ++ i.name ++ "'"]
              | none => [])
       else
        match node.id with
        | some i => ["'" ++ i.name ++ "'"]
        | none => [])
    String.intercalate " " tokens

/-- Models `upperCaseFirst(string)`: uppercase the first character
(`string[0].toUpperCase() + string.slice(1)`; strings of length at most 1
are uppercased whole). -/
def upperCaseFirst (string : String) : String :=
  if string.length ≤ 1 then ⟨string.data.map Char.toUpper⟩
  else ⟨match string.data with
        | [] => []
        | c :: cs => Char.toUpper c :: cs⟩

/-- The rule's options object: two optional non-negative integer limits. -/
structure Options where
  func : Option Nat
  constructor : Option Nat
deriving DecidableEq

/-- The option-reading prologue of `create`: each limit is kept only when
its configured value is truthy (present and non-zero), mirroring
`if (option.func) funcNumParams = option.func`. Returns
`(funcNumParams, constructorNumParams)`. -/
def create (option : Option Options) : Option Nat × Option Nat :=
  match option with
  | none => (none, none)
  | some o =>
      ((match o.func with
        | some v => if v != 0 then some v else none
        | none => none),
       (match o.constructor with
        | some v => if v != 0 then some v else none
        | none => none))

/-- The JS comparison `c > m` where `m` may be `undefined`: comparing
against `undefined` is `false`. -/
def jsGt (c : Nat) (m : Option Nat) : Bool :=
  match m with
  | some v => decide (v < c)
  | none => false

/-- A violation record: the head location span, the capitalized label,
the parameter count and the limit variable passed to the report. -/
structure Violation where
  loc : Option SourceLocation
  name : String
  count : Nat
  max : Option Nat
deriving DecidableEq

/-- Models `buildError(node, name, sourceCode, numParams)`. -/
def buildError (node : FuncNode) (name : String) (sourceCode : SourceCode)
    (numParams : Option Nat) : Violation :=
  { loc := getFunctionHeadLoc node sourceCode,
    name := upperCaseFirst name,
    count := node.params.length,
    max := numParams }

/-- Models `checkFunction(node)` with the limits read by `create`: constructor
labels are checked against the constructor limit, everything else against
the function limit; `none` means no report. -/
def checkFunction (limits : Option Nat × Option Nat)
    (sourceCode : SourceCode) (node : FuncNode) : Option Violation :=
  let name := getFunctionNameWithKind node
  if name == "constructor" then
    if jsGt node.params.length limits.2 then
      some (buildError node name sourceCode limits.2)
    else none
  else
    if jsGt node.params.length limits.1 then
      some (buildError node name sourceCode limits.1)
    else none

/-- One rule run: `create` reads the options, `checkFunction` visits each
function-like node in traversal order, reports are collected in order. -/
def runRule (option : Option Options) (sourceCode : SourceCode)
    (nodes : List FuncNode) : List Violation :=
  nodes.filterMap (checkFunction (create option) sourceCode)

/-- Shorthand for building a single-line token with its range and
1-based columns. -/
def tok (type value : String) (start stop line scol ecol : Nat) : Token :=
  ⟨type, value, start, stop, ⟨⟨line, scol⟩, ⟨line, ecol⟩⟩⟩

/-- A placeholder location for parents whose location is never read. -/
def dummyLoc : SourceLocation := ⟨⟨0, 0⟩, ⟨0, 0⟩⟩

/-- The parent of a declarator-initialized function expression/arrow. -/
def varDeclParent : ParentNode :=
  ⟨"VariableDeclarator", false, false, .other "", "", dummyLoc⟩

/-- The parent of a top-level function declaration. -/
def programParent : ParentNode :=
  ⟨"Program", false, false, .other "", "", dummyLoc⟩

/-- Tokens of `function test(a, b, c) {\n  // comment\n}`. -/
def testFuncTokens : SourceCode :=
  [tok "Keyword" "function" 0 8 1 1 9,
   tok "Identifier" "test" 9 13 1 10 14,
   tok "Punctuator" "(" 13 14 1 14 15,
   tok "Identifier" "a" 14 15 1 15 16,
   tok "Punctuator" "," 15 16 1 16 17,
   tok "Identifier" "b" 17 18 1 18 19,
   tok "Punctuator" "," 18 19 1 19 20,
   tok "Identifier" "c" 20 21 1 21 22,
   tok "Punctuator" ")" 21 22 1 22 23,
   tok "Punctuator" "\x7b" 23 24 1 24 25,
   tok "Punctuator" "\x7d" 53 54 3 1 2]

/-- The FunctionDeclaration node of `function test(a, b, c) { ... }`. -/
def testFuncNode : FuncNode :=
  { type := "FunctionDeclaration",
    parent := programParent,
    params := [⟨14, 15⟩, ⟨17, 18⟩, ⟨20, 21⟩],
    id := some ⟨"test", 9, 13⟩,
    async := false, generator := false,
    start := 0, stop := 54, bodyStart := 23,
    loc := ⟨⟨1, 1⟩, ⟨3, 2⟩⟩ }

/-- Tokens of the class from the end-to-end test:
`class Test {` / `constructor(a, b, c) {}` / `wrongMethod(a, b, c, d, e) {}`
/ `}` (body lines indented by 8, the closing brace by 6). -/
def classTokens : SourceCode :=
  [tok "Keyword" "class" 0 5 1 1 6,
   tok "Identifier" "Test" 6 10 1 7 11,
   tok "Punctuator" "\x7b" 11 12 1 12 13,
   tok "Identifier" "constructor" 21 32 2 9 20,
   tok "Punctuator" "(" 32 33 2 21 22,
   tok "Identifier" "a" 33 34 2 22 23,
   tok "Punctuator" "," 34 35 2 23 24,
   tok "Identifier" "b" 36 37 2 25 26,
   tok "Punctuator" "," 37 38 2 26 27,
   tok "Identifier" "c" 39 40 2 28 29,
   tok "Punctuator" ")" 40 41 2 29 30,
   tok "Punctuator" "\x7b" 42 43 2 31 32,
   tok "Punctuator" "\x7d" 43 44 2 32 33,
   tok "Identifier" "wrongMethod" 53 64 3 9 20,
   tok "Punctuator" "(" 64 65 3 21 22,
   tok "Identifier" "a" 65 66 3 22 23,
   tok "Punctuator" "," 66 67 3 23 24,
   tok "Identifier" "b" 68 69 3 25 26,
   tok "Punctuator" "," 69 70 3 26 27,
   tok "Identifier" "c" 71 72 3 28 29,
   tok "Punctuator" "," 72 73 3 29 30,
   tok "Identifier" "d" 74 75 3 31 32,
   tok "Punctuator" "," 75 76 3 32 33,
   tok "Identifier" "e" 77 78 3 34 35,
   tok "Punctuator" ")" 78 79 3 35 36,
   tok "Punctuator" "\x7b" 80 81 3 37 38,
   tok "Punctuator" "\x7d" 81 82 3 38 39,
   tok "Punctuator" "\x7d" 89 90 4 7 8]

/-- The FunctionExpression of `constructor(a, b, c) {}` inside the class. -/
def ctorNode : FuncNode :=
  { type := "FunctionExpression",
    parent := ⟨"MethodDefinition", false, false, .identifier "constructor",
      "constructor", ⟨⟨2, 9⟩, ⟨2, 33⟩⟩⟩,
    params := [⟨33, 34⟩, ⟨36, 37⟩, ⟨39, 40⟩],
    id := none,
    async := false, generator := false,
    start := 32, stop := 44, bodyStart := 42,
    loc := ⟨⟨2, 21⟩, ⟨2, 33⟩⟩ }

/-- The FunctionExpression of `wrongMethod(a, b, c, d, e) {}`. -/
def wrongMethodNode : FuncNode :=
  { type := "FunctionExpression",
    parent := ⟨"MethodDefinition", false, false, .identifier "wrongMethod",
      "method", ⟨⟨3, 9⟩, ⟨3, 39⟩⟩⟩,
    params := [⟨65, 66⟩, ⟨68, 69⟩, ⟨71, 72⟩, ⟨74, 75⟩, ⟨77, 78⟩],
    id := none,
    async := false, generator := false,
    start := 64, stop := 82, bodyStart := 80,
    loc := ⟨⟨3, 21⟩, ⟨3, 39⟩⟩ }

/-- Tokens of `var test = (a, b, c, d) => {};`. -/
def arrow4Tokens : SourceCode :=
  [tok "Keyword" "var" 0 3 1 1 4,
   tok "Identifier" "test" 4 8 1 5 9,
   tok "Punctuator" "=" 9 10 1 10 11,
   tok "Punctuator" "(" 11 12 1 12 13,
   tok "Identifier" "a" 12 13 1 13 14,
   tok "Punctuator" "," 13 14 1 14 15,
   tok "Identifier" "b" 15 16 1 16 17,
   tok "Punctuator" "," 16 17 1 17 18,
   tok "Identifier" "c" 18 19 1 19 20,
   tok "Punctuator" "," 19 20 1 20 21,
   tok "Identifier" "d" 21 22 1 22 23,
   tok "Punctuator" ")" 22 23 1 23 24,
   tok "Punctuator" "=>" 24 26 1 25 27,
   tok "Punctuator" "\x7b" 27 28 1 28 29,
   tok "Punctuator" "\x7d" 28 29 1 29 30,
   tok "Punctuator" ";" 29 30 1 30 31]

/-- The ArrowFunctionExpression of `var test = (a, b, c, d) => {};`. -/
def arrow4Node : FuncNode :=
  { type := "ArrowFunctionExpression",
    parent := varDeclParent,
    params := [⟨12, 13⟩, ⟨15, 16⟩, ⟨18, 19⟩, ⟨21, 22⟩],
    id := none,
    async := false, generator := false,
    start := 11, stop := 29, bodyStart := 27,
    loc := ⟨⟨1, 12⟩, ⟨1, 30⟩⟩ }

/-- Tokens of `var f = x => x`. -/
def arrowXTokens : SourceCode :=
  [tok "Keyword" "var" 0 3 1 1 4,
   tok "Identifier" "f" 4 5 1 5 6,
   tok "Punctuator" "=" 6 7 1 7 8,
   tok "Identifier" "x" 8 9 1 9 10,
   tok "Punctuator" "=>" 10 12 1 11 13,
   tok "Identifier" "x" 13 14 1 14 15]

/-- The ArrowFunctionExpression of `var f = x => x`. -/
def arrowXNode : FuncNode :=
  { type := "ArrowFunctionExpression",
    parent := varDeclParent,
    params := [⟨8, 9⟩],
    id := none,
    async := false, generator := false,
    start := 8, stop := 14, bodyStart := 13,
    loc := ⟨⟨1, 9⟩, ⟨1, 15⟩⟩ }

/-- Tokens of `var f = (x) => x`. -/
def arrowParenXTokens : SourceCode :=
  [tok "Keyword" "var" 0 3 1 1 4,
   tok "Identifier" "f" 4 5 1 5 6,
   tok "Punctuator" "=" 6 7 1 7 8,
   tok "Punctuator" "(" 8 9 1 9 10,
   tok "Identifier" "x" 9 10 1 10 11,
   tok "Punctuator" ")" 10 11 1 11 12,
   tok "Punctuator" "=>" 12 14 1 13 15,
   tok "Identifier" "x" 15 16 1 16 17]

/-- The ArrowFunctionExpression of `var f = (x) => x`. -/
def arrowParenXNode : FuncNode :=
  { type := "ArrowFunctionExpression",
    parent := varDeclParent,
    params := [⟨9, 10⟩],
    id := none,
    async := false, generator := false,
    start := 8, stop := 16, bodyStart := 15,
    loc := ⟨⟨1, 9⟩, ⟨1, 17⟩⟩ }

/-- The FunctionExpression of `var test = function(a, b, c, d) {};`. -/
def anonFuncExprNode : FuncNode :=
  { type := "FunctionExpression",
    parent := varDeclParent,
    params := [⟨20, 21⟩, ⟨23, 24⟩, ⟨26, 27⟩, ⟨29, 30⟩],
    id := none,
    async := false, generator := false,
    start := 11, stop := 34, bodyStart := 32,
    loc := ⟨⟨1, 12⟩, ⟨1, 35⟩⟩ }

example : getFunctionNameWithKind testFuncNode = "function 'test'" := by decide
example : getFunctionNameWithKind ctorNode = "constructor" := by decide
example : getFunctionNameWithKind wrongMethodNode = "method 'wrongMethod'" := by
  decide
example : getFunctionNameWithKind arrow4Node = "arrow function" := by decide
example : getFunctionNameWithKind anonFuncExprNode = "function" := by decide
example : getFunctionHeadLoc testFuncNode testFuncTokens =
    some ⟨⟨1, 1⟩, ⟨1, 14⟩⟩ := by decide
example : getFunctionHeadLoc arrow4Node arrow4Tokens =
    some ⟨⟨1, 25⟩, ⟨1, 27⟩⟩ := by decide
example : (getOpeningParenOfParams arrowXNode arrowXTokens).map Token.value =
    some "x" := by decide
example : (getOpeningParenOfParams arrowParenXNode arrowParenXTokens).map
    Token.start = some 8 := by decide
example : runRule (some ⟨some 2, some 3⟩) classTokens [ctorNode, wrongMethodNode] =
    [{ loc := some ⟨⟨3, 9⟩, ⟨3, 21⟩⟩, name := "Method 'wrongMethod'",
       count := 5, max := some 2 }] := by decide

/-- The limit that `checkFunction` compares against for a given node: the
constructor limit when the node's label is exactly "constructor", the
function limit otherwise. -/
def appliedLimit (option : Option Options) (node : FuncNode) : Option Nat :=
  if getFunctionNameWithKind node == "constructor" then (create option).2
  else (create option).1

/-- C1: for every function-like node with parameter count `c` whose
applicable configured limit is defined and equals `m`, a violation is
reported iff `c > m` (so never when `c = m`); when the applicable limit
is undefined, no violation is reported. -/
theorem c1_report_iff_exceeds_limit (option : Option Options)
    (sourceCode : SourceCode) (node : FuncNode) (m : Nat) :
    (appliedLimit option node = some m →
      ((checkFunction (create option) sourceCode node).isSome = true ↔
        node.params.length > m))
    ∧ (appliedLimit option node = none →
        checkFunction (create option) sourceCode node = none) := by
  cases hcb : (getFunctionNameWithKind node == "constructor") with
  | true =>
      constructor
      · intro hm
        unfold appliedLimit at hm
        rw [hcb] at hm
        simp at hm
        by_cases hc : m < node.params.length <;>
          simp [checkFunction, hcb, jsGt, hm, hc]
      · intro hm
        unfold appliedLimit at hm
        rw [hcb] at hm
        simp at hm
        simp [checkFunction, hcb, jsGt, hm]
  | false =>
      constructor
      · intro hm
        unfold appliedLimit at hm
        rw [hcb] at hm
        simp at hm
        by_cases hc : m < node.params.length <;>
          simp [checkFunction, hcb, jsGt, hm, hc]
      · intro hm
        unfold appliedLimit at hm
        rw [hcb] at hm
        simp at hm
        simp [checkFunction, hcb, jsGt, hm]

/-- C1 witness: with `func: 2` the three-parameter `function test` is
reported. -/
theorem c1_report_iff_exceeds_limit_witness :
    (checkFunction (create (some ⟨some 2, none⟩)) testFuncTokens
      testFuncNode).isSome = true :=
  ((c1_report_iff_exceeds_limit (some ⟨some 2, none⟩) testFuncTokens
    testFuncNode 2).1 (by decide)).mpr (by decide)

/-- C2: configuring a limit as 0 behaves exactly like omitting it (the
options are read through truthiness guards), so the corresponding
category is never reported, whatever the parameter count. -/
theorem c2_zero_limit_is_no_limit (x : Option Nat) (sourceCode : SourceCode)
    (node : FuncNode) :
    create (some ⟨some 0, x⟩) = create (some ⟨none, x⟩)
    ∧ create (some ⟨x, some 0⟩) = create (some ⟨x, none⟩)
    ∧ (getFunctionNameWithKind node ≠ "constructor" →
        checkFunction (create (some ⟨some 0, x⟩)) sourceCode node = none)
    ∧ (getFunctionNameWithKind node = "constructor" →
        checkFunction (create (some ⟨x, some 0⟩)) sourceCode node = none) := by
  refine ⟨rfl, rfl, ?_, ?_⟩
  · intro h
    have hb : (getFunctionNameWithKind node == "constructor") = false :=
      beq_eq_false_iff_ne.mpr h
    simp [checkFunction, hb, create, jsGt]
  · intro h
    have hb : (getFunctionNameWithKind node == "constructor") = true :=
      beq_iff_eq.mpr h
    simp [checkFunction, hb, create, jsGt]

/-- C2 witness: `func: 0` leaves a 3-parameter function unreported, and
`constructor: 0` leaves a 3-parameter constructor unreported. -/
theorem c2_zero_limit_is_no_limit_witness :
    checkFunction (create (some ⟨some 0, some 3⟩)) testFuncTokens
      testFuncNode = none
    ∧ checkFunction (create (some ⟨some 3, some 0⟩)) classTokens
      ctorNode = none :=
  ⟨(c2_zero_limit_is_no_limit (some 3) testFuncTokens testFuncNode).2.2.1
      (by decide),
   (c2_zero_limit_is_no_limit (some 3) classTokens ctorNode).2.2.2
      (by decide)⟩

/-- C3: with `{ func: 2, constructor: 3 }` on the test class, exactly one
violation is emitted — on `wrongMethod`, with name "Method
'wrongMethod'", count 5 and max 2 — and the 3-parameter constructor
(limit 3) is not flagged. -/
theorem c3_class_end_to_end :
    runRule (some ⟨some 2, some 3⟩) classTokens [ctorNode, wrongMethodNode] =
      [{ loc := some ⟨⟨3, 9⟩, ⟨3, 21⟩⟩, name := "Method 'wrongMethod'",
         count := 5, max := some 2 }]
    ∧ checkFunction (create (some ⟨some 2, some 3⟩)) classTokens ctorNode = none
    ∧ checkFunction (create (some ⟨some 2, some 3⟩)) classTokens
        wrongMethodNode =
      some { loc := some ⟨⟨3, 9⟩, ⟨3, 21⟩⟩, name := "Method 'wrongMethod'",
             count := 5, max := some 2 } := by
  refine ⟨?_, ?_, ?_⟩ <;> decide

/-- C7: a node whose parent is a Property or MethodDefinition with kind
"constructor" is labeled exactly "constructor", whatever descriptor
words (static, private, async, generator) were accumulated and with no
name suffix. -/
theorem c7_constructor_label (node : FuncNode) :
    (node.parent.type = "Property" ∨ node.parent.type = "MethodDefinition") →
    node.parent.kind = "constructor" →
    getFunctionNameWithKind node = "constructor" := by
  intro h hk
  rcases h with h | h <;> simp [getFunctionNameWithKind, h, hk]

/-- C7 witness: the class constructor of the end-to-end test is labeled
"constructor". -/
theorem c7_constructor_label_witness :
    getFunctionNameWithKind ctorNode = "constructor" :=
  c7_constructor_label ctorNode (Or.inr rfl) rfl

/-- C10: the labeler and the head-location extractor are pure functions
of the node and token stream: evaluating either twice on the same inputs
yields identical results (the embedding is side-effect free because the
source only reads the tree and copies location records before returning
them). -/
theorem c10_labeler_and_loc_idempotent (node : FuncNode)
    (sourceCode : SourceCode) :
    getFunctionNameWithKind node = getFunctionNameWithKind node
    ∧ getFunctionHeadLoc node sourceCode = getFunctionHeadLoc node sourceCode :=
  ⟨rfl, rfl⟩

/-- C4: a member function's head span runs from its parent's start to the
start of the opening-parameter-boundary token; a non-member, non-arrow
function's head span runs from the node's own start to that same
boundary token's start. Concretely, `function test(a, b, c) { ... }`
with `func: 2` is reported on line 1, columns 1-14 — exactly
`function test`, never the body. -/
theorem c4_head_loc_spans (node : FuncNode) (sourceCode : SourceCode)
    (tk : Token) :
    ((node.parent.type = "Property" ∨ node.parent.type = "MethodDefinition"
        ∨ node.parent.type = "PropertyDefinition") →
      getOpeningParenOfParams node sourceCode = some tk →
      getFunctionHeadLoc node sourceCode =
        some ⟨node.parent.loc.start, tk.loc.start⟩)
    ∧ (node.parent.type ≠ "Property" → node.parent.type ≠ "MethodDefinition" →
        node.parent.type ≠ "PropertyDefinition" →
        node.type ≠ "ArrowFunctionExpression" →
        getOpeningParenOfParams node sourceCode = some tk →
        getFunctionHeadLoc node sourceCode =
          some ⟨node.loc.start, tk.loc.start⟩)
    ∧ getFunctionHeadLoc testFuncNode testFuncTokens = some ⟨⟨1, 1⟩, ⟨1, 14⟩⟩
    ∧ checkFunction (create (some ⟨some 2, none⟩)) testFuncTokens testFuncNode =
        some { loc := some ⟨⟨1, 1⟩, ⟨1, 14⟩⟩, name := "Function 'test'",
               count := 3, max := some 2 } := by
  refine ⟨?_, ?_, by decide, by decide⟩
  · intro h hop
    rcases h with h | h | h <;> simp [getFunctionHeadLoc, h, hop]
  · intro h1 h2 h3 h4 hop
    have hb1 := beq_eq_false_iff_ne.mpr h1
    have hb2 := beq_eq_false_iff_ne.mpr h2
    have hb3 := beq_eq_false_iff_ne.mpr h3
    have hb4 := beq_eq_false_iff_ne.mpr h4
    simp [getFunctionHeadLoc, hb1, hb2, hb3, hb4, hop]

/-- C4 witness: the member case applied to `wrongMethod` of the test
class. -/
theorem c4_head_loc_spans_witness :
    getFunctionHeadLoc wrongMethodNode classTokens = some ⟨⟨3, 9⟩, ⟨3, 21⟩⟩ :=
  (c4_head_loc_spans wrongMethodNode classTokens
      (tok "Punctuator" "(" 64 65 3 21 22)).1
    (Or.inr (Or.inl rfl)) (by decide)

/-- C5: a non-member arrow function's head span is exactly the bounds of
its "=>" token — neither the parameter list nor any leading keyword. -/
theorem c5_arrow_head_is_arrow_token (node : FuncNode)
    (sourceCode : SourceCode) (arrowTk : Token) :
    node.parent.type ≠ "Property" → node.parent.type ≠ "MethodDefinition" →
    node.parent.type ≠ "PropertyDefinition" →
    node.type = "ArrowFunctionExpression" →
    getTokenBeforeFiltered sourceCode node.bodyStart isArrowToken =
      some arrowTk →
    getFunctionHeadLoc node sourceCode =
      some ⟨arrowTk.loc.start, arrowTk.loc.stop⟩ := by
  intro h1 h2 h3 h4 ha
  have hb1 := beq_eq_false_iff_ne.mpr h1
  have hb2 := beq_eq_false_iff_ne.mpr h2
  have hb3 := beq_eq_false_iff_ne.mpr h3
  simp [getFunctionHeadLoc, hb1, hb2, hb3, h4, ha]

/-- C5 witness: the arrow of `var test = (a, b, c, d) => {};` is the
reported span. -/
theorem c5_arrow_head_is_arrow_token_witness :
    getFunctionHeadLoc arrow4Node arrow4Tokens = some ⟨⟨1, 25⟩, ⟨1, 27⟩⟩ :=
  c5_arrow_head_is_arrow_token arrow4Node arrow4Tokens
    (tok "Punctuator" "=>" 24 26 1 25 27)
    (by decide) (by decide) (by decide) rfl (by decide)

/-- C6: for a single-parameter arrow function, the opening-parameter
boundary is the parameter's first token, unless an opening parenthesis
immediately precedes it, which is then returned; any other function-like
node yields the first "(" after its name identifier when it has one, and
otherwise the first "(" inside the node. -/
theorem c6_opening_paren_of_params (node : FuncNode) (sourceCode : SourceCode)
    (p : ParamNode) (argTk prevTk : Token) :
    (node.type = "ArrowFunctionExpression" → node.params = [p] →
      getFirstToken sourceCode p.start p.stop = some argTk →
      getTokenBefore sourceCode argTk.start = some prevTk →
      ((isOpeningParenToken prevTk = false →
          getOpeningParenOfParams node sourceCode = some argTk)
        ∧ (isOpeningParenToken prevTk = true →
          getOpeningParenOfParams node sourceCode = some prevTk)))
    ∧ (¬(node.type = "ArrowFunctionExpression" ∧ node.params.length = 1) →
        ((∀ i : Ident, node.id = some i →
            getOpeningParenOfParams node sourceCode =
              getTokenAfterFiltered sourceCode i.stop isOpeningParenToken)
          ∧ (node.id = none →
            getOpeningParenOfParams node sourceCode =
              getFirstTokenFiltered sourceCode node.start node.stop
                isOpeningParenToken))) := by
  constructor
  · intro ht hp hfirst hbefore
    constructor <;> intro hpar <;>
      simp [getOpeningParenOfParams, ht, hp, hfirst, hbefore, hpar]
  · intro hno
    have hb : (node.type == "ArrowFunctionExpression"
        && node.params.length == 1) = false := by
      rcases not_and_or.mp hno with h | h
      · simp [beq_eq_false_iff_ne.mpr h]
      · simp [beq_eq_false_iff_ne.mpr h]
    constructor
    · intro i hi
      simp [getOpeningParenOfParams, hb, hi]
    · intro hid
      simp [getOpeningParenOfParams, hb, hid]

/-- C6 witness: in `var f = x => x` the boundary is the parameter token
`x`; in `var f = (x) => x` it is the preceding "("; in
`var test = function(a, b, c, d) {}` (anonymous, no id) it is the first
"(" inside the node. -/
theorem c6_opening_paren_of_params_witness :
    getOpeningParenOfParams arrowXNode arrowXTokens =
      some (tok "Identifier" "x" 8 9 1 9 10)
    ∧ getOpeningParenOfParams arrowParenXNode arrowParenXTokens =
      some (tok "Punctuator" "(" 8 9 1 9 10)
    ∧ getOpeningParenOfParams anonFuncExprNode arrow4Tokens =
      getFirstTokenFiltered arrow4Tokens anonFuncExprNode.start
        anonFuncExprNode.stop isOpeningParenToken :=
  ⟨((c6_opening_paren_of_params arrowXNode arrowXTokens ⟨8, 9⟩
      (tok "Identifier" "x" 8 9 1 9 10) (tok "Punctuator" "=" 6 7 1 7 8)).1
      rfl rfl (by decide) (by decide)).1 (by decide),
   ((c6_opening_paren_of_params arrowParenXNode arrowParenXTokens ⟨9, 10⟩
      (tok "Identifier" "x" 9 10 1 10 11) (tok "Punctuator" "(" 8 9 1 9 10)).1
      rfl rfl (by decide) (by decide)).2 (by decide),
   ((c6_opening_paren_of_params anonFuncExprNode arrow4Tokens ⟨0, 0⟩
      (tok "" "" 0 0 0 0 0) (tok "" "" 0 0 0 0 0)).2 (by decide)).2 rfl⟩

/-- Joining the word list ["function", "'" ++ nm ++ "'"] with spaces
yields "function 'nm'". -/
theorem intercalate_function_name (nm : String) :
    String.intercalate " " ["function", "'" ++ nm ++ "'"] =
      "function '" ++ nm ++ "'" := by
  show "function" ++ " " ++ ("'" ++ nm ++ "'") = "function '" ++ nm ++ "'"
  have h : "function" ++ " " ++ "'" = "function '" := rfl
  rw [← String.append_assoc, ← String.append_assoc, h]

/-- C8: a non-member, non-arrow, non-async, non-generator function is
labeled bare "function" when unnamed and "function 'name'" when named;
after capitalization the examples read "Function 'test'", "Function"
(anonymous function expression) and "Arrow function" (anonymous arrow). -/
theorem c8_nonmember_labels (node : FuncNode) (i : Ident) :
    (node.parent.type ≠ "Property" → node.parent.type ≠ "MethodDefinition" →
      node.parent.type ≠ "PropertyDefinition" →
      node.async = false → node.generator = false →
      node.type ≠ "ArrowFunctionExpression" →
      ((node.id = none → getFunctionNameWithKind node = "function")
        ∧ (node.id = some i →
            getFunctionNameWithKind node = "function '" ++ i.name ++ "'")))
    ∧ upperCaseFirst (getFunctionNameWithKind testFuncNode) = "Function 'test'"
    ∧ upperCaseFirst (getFunctionNameWithKind anonFuncExprNode) = "Function"
    ∧ upperCaseFirst (getFunctionNameWithKind arrow4Node) = "Arrow function" := by
  refine ⟨?_, by decide, by decide, by decide⟩
  intro h1 h2 h3 hasync hgen harrow
  have hb1 := beq_eq_false_iff_ne.mpr h1
  have hb2 := beq_eq_false_iff_ne.mpr h2
  have hb3 := beq_eq_false_iff_ne.mpr h3
  have hb4 := beq_eq_false_iff_ne.mpr harrow
  constructor
  · intro hid
    simp [getFunctionNameWithKind, hb1, hb2, hb3, hb4, hasync, hgen, hid]
    rfl
  · intro hid
    simp [getFunctionNameWithKind, hb1, hb2, hb3, hb4, hasync, hgen, hid]
    exact intercalate_function_name i.name

/-- C8 witness: the named declaration case applied to `function test`. -/
theorem c8_nonmember_labels_witness :
    getFunctionNameWithKind testFuncNode = "function '" ++ "test" ++ "'" :=
  ((c8_nonmember_labels testFuncNode ⟨"test", 9, 13⟩).1
    (by decide) (by decide) (by decide) rfl rfl (by decide)).2 rfl

/-- C9: `getStaticStringValue` returns the string form of an ordinary
literal's value, "null" for a true null literal, "/pattern/flags" for a
regex literal (representable via the first clause, unrepresentable via
the third), the digit text for a bigint literal, the single cooked chunk
of a simple TemplateLiteral, and `none` for non-simple templates and
every other node kind. -/
theorem c9_static_string_value (v : JSValue) (r : Option RegexInfo)
    (b : Option String) (p f d s t : String) (exprCount : Nat)
    (quasis : List String) :
    (v ≠ JSValue.null →
      getStaticStringValue (.literal v r b) = some (jsToString v))
    ∧ getStaticStringValue (.literal .null none none) = some "null"
    ∧ getStaticStringValue (.literal .null (some ⟨p, f⟩) b) =
        some ("/" ++ p ++ "/" ++ f)
    ∧ getStaticStringValue (.literal .null none (some d)) = some d
    ∧ getStaticStringValue (.templateLiteral 0 [s]) = some s
    ∧ (¬(exprCount = 0 ∧ quasis.length = 1) →
        getStaticStringValue (.templateLiteral exprCount quasis) = none)
    ∧ getStaticStringValue (.identifier t) = none
    ∧ getStaticStringValue (.privateIdentifier t) = none
    ∧ getStaticStringValue (.other t) = none := by
  refine ⟨?_, rfl, rfl, rfl, rfl, ?_, rfl, rfl, rfl⟩
  · intro hv
    cases v <;> simp_all [getStaticStringValue, jsToString]
  · intro hq
    have hb : (exprCount == 0 && quasis.length == 1) = false := by
      rcases not_and_or.mp hq with h | h
      · simp [beq_eq_false_iff_ne.mpr h]
      · simp [beq_eq_false_iff_ne.mpr h]
    simp [getStaticStringValue, hb]

/-- C9 witness: a string literal resolves to itself; a two-quasi
template resolves to nothing. -/
theorem c9_static_string_value_witness :
    getStaticStringValue (.literal (.str "b") none none) = some "b"
    ∧ getStaticStringValue (.templateLiteral 1 ["a", "b"]) = none :=
  ⟨(c9_static_string_value (.str "b") none none "" "" "" "" "" 1 []).1
      (by decide),
   (c9_static_string_value (.str "b") none none "" "" "" "" "" 1
      ["a", "b"]).2.2.2.2.2.1 (by simp)⟩
